import Mathlib

/-!
Verification development for `scripts/env_doctor.py`, a diagnostic utility
that checks a developer machine against a fixed list of environment
prerequisites and reduces the results to a report and an exit code.

The Python source is shallowly embedded: environment-dependent reads
(`platform.system()`, `os.environ`, `/proc/version`, `shutil.which`,
`os.path.abspath`) become explicit parameters, exceptions become sum types,
and every function is a total executable Lean definition mirroring the
source line by line.
-/

namespace EnvDoctor

/-- The uniform outcome record of a single check (`@dataclass CheckResult`). -/
structure CheckResult where
  name : String
  ok : Bool
  details : String
  fix : String
  required : Bool
deriving DecidableEq, Repr

/-! ### String helpers

Python string operations used by the source, re-implemented on `List Char`
so everything evaluates. -/

/-- Python `str.lower()` on the ASCII range (all strings compared in the
source are ASCII). -/
def lowerStr (s : String) : String := String.mk (s.data.map Char.toLower)

/-- `needle` occurs at the start of `hay` (character-exact comparison). -/
def leadsWith : List Char → List Char → Bool
  | [], _ => true
  | _ :: _, [] => false
  | n :: ns, h :: hs => n == h && leadsWith ns hs

/-- Python `needle in hay` substring containment on char lists. -/
def hasSub (needle hay : List Char) : Bool :=
  leadsWith needle hay ||
    match hay with
    | [] => false
    | _ :: hs => hasSub needle hs

/-! ### Minimal regex engine

The source uses `re` in exactly two places:
`re.match(r"^/mnt/[a-zA-Z]/", p)` (handled directly below) and
`re.search(p, path, re.IGNORECASE)` over five fixed patterns whose only
constructs are literal characters, `\`-escaped literals and the class
`[^/]+`.  We compile those constructs into tokens and search with
case-insensitive comparison (the `re.IGNORECASE` flag). -/

inductive RegexToken where
  | lit (c : Char)
  | notSlashPlus
deriving DecidableEq, Repr

/-- Compile a pattern source string (as used in `path_contains_windows_bins`)
into tokens: a backslash escapes the next character, `[^/]+` is the only
class, everything else is a literal. -/
def compilePat : List Char → List RegexToken
  | [] => []
  | '\\' :: c :: rest => .lit c :: compilePat rest
  | '[' :: '^' :: '/' :: ']' :: '+' :: rest => .notSlashPlus :: compilePat rest
  | c :: rest => .lit c :: compilePat rest

/-- A match of the token list exists starting exactly at the head of `s`,
comparing literals case-insensitively. -/
def matchHere : List RegexToken → List Char → Bool
  | [], _ => true
  | .lit _ :: _, [] => false
  | .lit c :: ts, x :: xs => (Char.toLower x == Char.toLower c) && matchHere ts xs
  | .notSlashPlus :: _, [] => false
  | .notSlashPlus :: ts, x :: xs =>
      !(x == '/') && (matchHere ts xs || matchHere (.notSlashPlus :: ts) xs)

/-- Python `re.search` semantics: a match exists at some start position. -/
def searchCI (ts : List RegexToken) : List Char → Bool
  | [] => matchHere ts []
  | c :: cs => matchHere ts (c :: cs) || searchCI ts cs

/-! ### `run` — the subprocess-invocation utility (lines 33-40)

`subprocess.run` is effectful; its possible outcomes are reified as a sum
type.  `run` itself is then the total function the `try/except` makes of
it: a `FileNotFoundError` becomes `(127, "", "not found: cmd[0]")` and a
`subprocess.TimeoutExpired` becomes `(124, "", "timeout")`. -/

inductive SubprocessOutcome where
  /-- `subprocess.run` completed and produced a `CompletedProcess`. -/
  | completed (returncode : Int) (stdout stderr : String)
  /-- `subprocess.run` raised `FileNotFoundError`. -/
  | fileNotFound
  /-- `subprocess.run` raised `subprocess.TimeoutExpired`. -/
  | timedOut
deriving DecidableEq, Repr

/-- The default value of the `timeout` keyword parameter of `run`. -/
def run_default_timeout : Nat := 5

/-- `run(cmd, timeout=5)`: converts the outcome of the guarded
`subprocess.run` call into a `(returncode, stdout, stderr)` triple.
`String.trim` models Python `.strip()`. -/
def run (cmd : List String) (_timeout : Nat) (outcome : SubprocessOutcome) :
    Int × String × String :=
  match outcome with
  | .completed rc out err => (rc, out.trim, err.trim)
  | .fileNotFound => (127, "", "not found: " ++ cmd.headD "")
  | .timedOut => (124, "", "timeout")

/-! ### Platform detection (lines 47-66) and `check_os` (lines 86-102)

The environment reads are gathered in `Env`: `platformSystem` is
`platform.system()`, `wslDistroName` is `os.environ.get("WSL_DISTRO_NAME")`
(`none` when unset), and `procVersion` is the text of `/proc/version`
(`none` when the `open`/`read` raises, i.e. file absent or unreadable). -/

structure Env where
  platformSystem : String
  wslDistroName : Option String
  procVersion : Option String
deriving DecidableEq, Repr

/-- Python truthiness of `os.environ.get(...)`: `None` and `""` are falsy. -/
def envTruthy : Option String → Bool
  | none => false
  | some s => !s.isEmpty

/-- `is_wsl()`: env var truthy, else `"microsoft" in f.read().lower()`,
with any read failure giving `False`. -/
def is_wsl (env : Env) : Bool :=
  if envTruthy env.wslDistroName then true
  else
    match env.procVersion with
    | some content => hasSub "microsoft".data (lowerStr content).data
    | none => false

/-- `is_windows_native()`: `platform.system().lower() == "windows"`. -/
def is_windows_native (env : Env) : Bool :=
  lowerStr env.platformSystem == "windows"

/-- `is_macos()`: `platform.system().lower() == "darwin"`. -/
def is_macos (env : Env) : Bool :=
  lowerStr env.platformSystem == "darwin"

/-- `is_linux()`: `platform.system().lower() == "linux"`. -/
def is_linux (env : Env) : Bool :=
  lowerStr env.platformSystem == "linux"

/-- `check_os()` (lines 86-102). -/
def check_os (env : Env) : CheckResult :=
  if is_windows_native env then
    { name := "OS is Linux / WSL / macOS (not Windows-native)"
      ok := false
      details := "Detected: " ++ env.platformSystem
      fix := "Run this script inside WSL/Linux/macOS terminal."
      required := true }
  else
    { name := "OS is Linux / WSL / macOS (not Windows-native)"
      ok := true
      details := "Detected: " ++
        (if is_wsl env then "WSL" else if is_macos env then "macOS" else "Linux")
      fix := ""
      required := true }

/-- The declarative compatibility-layer signal of the spec: the env var is
set to a nonempty value, or the kernel-version file was read and its text
contains the vendor marker case-insensitively. -/
def wsl_signal (env : Env) : Prop :=
  (∃ s, env.wslDistroName = some s ∧ s ≠ "")
  ∨ (∃ content, env.procVersion = some content ∧
       hasSub "microsoft".data (lowerStr content).data = true)

/-! ### Filesystem locator (lines 69-71, 105-114)

`os.path.abspath` depends on the process working directory, so the
embedding takes the already-absolutised path `p` as input (for a
normalised absolute path `abspath` is the identity). -/

/-- Boolean form of `re.match(r"^/mnt/[a-zA-Z]/", p)`: the string starts
with `/mnt/`, then exactly one ASCII letter, then `/`. -/
def matchesMntDrive (p : String) : Bool :=
  match p.data with
  | '/' :: 'm' :: 'n' :: 't' :: '/' :: c :: '/' :: _ => c.isAlpha
  | _ => false

/-- `project_is_on_linux_fs(project_path)` applied to the absolutised
path: `not re.match(r"^/mnt/[a-zA-Z]/", p)`. -/
def project_is_on_linux_fs (p : String) : Bool :=
  !matchesMntDrive p

/-- `check_project_path(project_path)` (lines 105-114), with `p` the
result of `os.path.abspath(project_path)`. -/
def check_project_path (p : String) : CheckResult :=
  { name := "Project directory is on Linux filesystem (not /mnt/c)"
    ok := project_is_on_linux_fs p
    details := p
    fix := "Move project into Linux FS (e.g. /home/<user>/project)."
    required := true }

/-! ### Path hygiene scanner (lines 74-83, 153-162)

`os.environ.get("PATH", "")` becomes the explicit `path` argument. -/

/-- The five fixed pattern source strings of `path_contains_windows_bins`,
verbatim (the third and following contain the class `[^/]+`, the second
contains escaped parentheses). -/
def windows_bin_patterns : List String :=
  [ "/mnt/c/Program Files/nodejs"
  , "/mnt/c/Program Files \\(x86\\)/nodejs"
  , "/mnt/c/Users/[^/]+/AppData/Roaming/npm"
  , "/mnt/c/Users/[^/]+/AppData/Local/Microsoft/WindowsApps"
  , "/mnt/c/Users/[^/]+/AppData/Local/Programs/Python" ]

/-- `path_contains_windows_bins()`:
`[p for p in patterns if re.search(p, path, re.IGNORECASE)]`. -/
def path_contains_windows_bins (path : String) : List String :=
  windows_bin_patterns.filter (fun p => searchCI (compilePat p.data) path.data)

/-- Python `repr` of a list of (quote-free ASCII) strings, as produced by
the f-string `f"matches: {hits}"`. -/
def pyReprStrList (l : List String) : String :=
  "[" ++ String.intercalate ", " (l.map (fun s => "\x27" ++ s ++ "\x27")) ++ "]"

/-- `check_windows_path_hygiene(strict)` (lines 153-162). -/
def check_windows_path_hygiene (strict : Bool) (path : String) : CheckResult :=
  { name := "WSL PATH does not include Windows Node/Python locations"
    ok := (path_contains_windows_bins path).length == 0
    details :=
      if (path_contains_windows_bins path).length == 0 then "clean"
      else "matches: " ++ pyReprStrList (path_contains_windows_bins path)
    fix := "Remove Windows runtime paths from WSL PATH (~/.bashrc, ~/.zshrc)."
    required := strict }

/-! ### Runtime version check (lines 117-126)

`sys.version_info` becomes explicit `major`/`minor` arguments, the
displayed `sys.version.split()[0]` and `sys.executable` become
`versionStr` and `executable`. -/

/-- Python tuple comparison `(a, b) >= (c, d)`: lexicographic. -/
def tuple2_ge (a b c d : Nat) : Bool :=
  if a == c then b ≥ d else a > c

/-- `check_python_version()` (lines 117-126). -/
def check_python_version (major minor : Nat) (versionStr executable : String) :
    CheckResult :=
  { name := "Python version >= 3.10"
    ok := tuple2_ge major minor 3 10
    details := versionStr ++ " (" ++ executable ++ ")"
    fix := "Install Python 3.10+ and activate the correct uv venv."
    required := true }

/-! ### Binary resolver (lines 43-44, 129-150)

`shutil.which(name)` is environment-dependent; its result (`None` or the
resolved path) is the explicit `whichResult` argument. -/

/-- `which(bin_name)` is the identity on the `shutil.which` result. -/
def which (whichResult : Option String) : Option String := whichResult

/-- Python `p or "not found"`: the left operand unless it is falsy
(`None` or the empty string). -/
def orElseStr (p : Option String) (alt : String) : String :=
  match p with
  | none => alt
  | some s => if s.isEmpty then alt else s

/-- `check_bin(name, required, label)` (lines 129-138); `whichResult` is
what `shutil.which(name)` returned.  No subprocess is involved: the body
only inspects `whichResult`. -/
def check_bin (whichResult : Option String) (required : Bool) (label : String) :
    CheckResult :=
  { name := label ++ " is installed"
    ok := (which whichResult).isSome
    details := orElseStr (which whichResult) "not found"
    fix := "Install `" ++ label ++ "` in WSL/Linux/macOS and ensure it is on PATH."
    required := required }

/-- `check_node_nvm(strict)` (lines 141-150); `node` is
`shutil.which("node")`.  `bool(node and ".nvm" in node)` is truthy-and. -/
def check_node_nvm (strict : Bool) (node : Option String) : CheckResult :=
  { name := "Node.js is installed via nvm"
    ok := match node with
      | none => false
      | some s => if s.isEmpty then false else hasSub ".nvm".data s.data
    details := orElseStr node "node not found"
    fix := "Install Node.js via nvm and run `nvm use`."
    required := strict }

/-! ### Check aggregator `print_results` (lines 165-188)

Modelled as a pure function returning the printed lines together with the
integer return value.  `print(x)` contributes the line `x`; the bare
`print()` after each result contributes an empty line. -/

/-- `failed_required = [r for r in results if r.required and not r.ok]`. -/
def failed_required (results : List CheckResult) : List CheckResult :=
  results.filter (fun r => r.required && !r.ok)

/-- `failed_optional = [r for r in results if not r.required and not r.ok]`. -/
def failed_optional (results : List CheckResult) : List CheckResult :=
  results.filter (fun r => !r.required && !r.ok)

/-- The lines printed for one result inside the `for` loop. -/
def resultLines (r : CheckResult) : List String :=
  [(if r.ok then "✅" else "❌") ++ " [" ++
     (if r.required then "REQUIRED" else "OPTIONAL") ++ "] " ++ r.name]
  ++ (if r.details.isEmpty then [] else ["    - " ++ r.details])
  ++ (if r.ok then [] else ["    - Fix: " ++ r.fix])
  ++ [""]

/-- The summary line and the return value of the tail of `print_results`. -/
def summaryAndCode (results : List CheckResult) : String × Nat :=
  if failed_required results ≠ [] then
    ("❌ Environment check FAILED (" ++
       toString (failed_required results).length ++ " required issue(s))", 1)
  else if failed_optional results ≠ [] then
    ("⚠️ Environment check PASSED with warnings (" ++
       toString (failed_optional results).length ++ ")", 0)
  else
    ("✅ Environment check PASSED", 0)

/-- `print_results(results)`: the full printed report (one entry per
`print` call, in order) paired with the returned exit status. -/
def print_results (results : List CheckResult) : List String × Nat :=
  ((results.map resultLines).flatten ++ [(summaryAndCode results).1],
   (summaryAndCode results).2)

/-- The `(ok, required)` pair of a result — the only data the exit status
can depend on. -/
def resultKey (r : CheckResult) : Bool × Bool := (r.ok, r.required)

/-! ## Theorems -/

/-- C5: The Runtime Version Check (check_python_version) reports ok=true for
every runtime version with (major, minor) >= (3, 10) and ok=false for every
version below 3.10 (3.9.x is false, 3.10.0 is true, 3.13.1 is true); the
result always has required=true. -/
theorem python_version_spec (major minor : Nat) (v e : String) :
    ((check_python_version major minor v e).ok = true ↔
      (3 < major ∨ (major = 3 ∧ 10 ≤ minor)))
    ∧ (check_python_version 3 9 v e).ok = false
    ∧ (check_python_version 3 10 v e).ok = true
    ∧ (check_python_version 3 13 v e).ok = true
    ∧ (check_python_version major minor v e).required = true := by
  refine ⟨?_, rfl, rfl, rfl, rfl⟩
  show (tuple2_ge major minor 3 10 = true) ↔ _
  unfold tuple2_ge
  split <;> rename_i h <;> simp at h ⊢ <;> omega

/-- C6: For every executable name, the Binary Resolver (check_bin) reports
ok=false with details "not found" when the search-path lookup resolves
nothing, and ok=true with details equal to the resolved (nonempty) path
when it succeeds; the body only inspects the lookup result, so no
subprocess is executed. -/
theorem binary_resolver_spec (required : Bool) (label : String) :
    ((check_bin none required label).ok = false
      ∧ (check_bin none required label).details = "not found")
    ∧ (∀ p : String, p ≠ "" →
        (check_bin (some p) required label).ok = true
        ∧ (check_bin (some p) required label).details = p) := by
  refine ⟨⟨rfl, rfl⟩, fun p hp => ⟨rfl, ?_⟩⟩
  show orElseStr (some p) "not found" = p
  simp [orElseStr, String.isEmpty_iff, hp]

/-- Witness for C6 at a concrete resolved path. -/
theorem binary_resolver_spec_witness :
    ("/usr/bin/node" : String) ≠ ""
    ∧ (check_bin (some "/usr/bin/node") true "Node.js").ok = true
    ∧ (check_bin (some "/usr/bin/node") true "Node.js").details = "/usr/bin/node" :=
  ⟨by decide, ((binary_resolver_spec true "Node.js").2 "/usr/bin/node" (by decide)).1,
    ((binary_resolver_spec true "Node.js").2 "/usr/bin/node" (by decide)).2⟩

/-- C7: The subprocess-invocation utility (run) never raises past its
boundary for a missing executable or an exceeded timeout: its default
timeout is the fixed value 5, a missing executable becomes the triple
(127, "", diagnostic) and a timeout becomes (124, "", "timeout"), both
non-zero return codes with empty stdout. -/
theorem run_error_conversion (cmd : List String) (t : Nat) :
    run cmd t .fileNotFound = (127, "", "not found: " ++ cmd.headD "")
    ∧ run cmd t .timedOut = (124, "", "timeout")
    ∧ run_default_timeout = 5
    ∧ (127 : Int) ≠ 0 ∧ (124 : Int) ≠ 0 :=
  ⟨rfl, rfl, rfl, by decide, by decide⟩

/-- C10: If WSL_DISTRO_NAME is present but set to the empty string, is_wsl
treats it as absent: the classification then depends solely on whether the
kernel-version file is readable and its contents contain "microsoft"
case-insensitively. -/
theorem wsl_empty_env_var_ignored (ps : String) (pv : Option String) :
    is_wsl ⟨ps, some "", pv⟩ = is_wsl ⟨ps, none, pv⟩
    ∧ is_wsl ⟨ps, some "", pv⟩ =
        (match pv with
         | some content => hasSub "microsoft".data (lowerStr content).data
         | none => false) := by
  have hie : ("" : String).isEmpty = true := rfl
  constructor <;> (unfold is_wsl; simp [envTruthy, hie])

/-- The `/mnt/<letter>/` shape spelled out on string concatenation. -/
lemma mnt_shape_data (c : Char) (rest : String) :
    ("/mnt/" ++ String.singleton c ++ "/" ++ rest).data =
      '/' :: 'm' :: 'n' :: 't' :: '/' :: c :: '/' :: rest.data := rfl

/-- `matchesMntDrive` agrees with the declarative reading of the regex
`^/mnt/[a-zA-Z]/`: some ASCII letter drive segment followed by a slash. -/
lemma matchesMntDrive_iff (p : String) :
    matchesMntDrive p = true ↔
      ∃ c rest, c.isAlpha = true ∧
        p = "/mnt/" ++ String.singleton c ++ "/" ++ rest := by
  constructor
  · intro h
    unfold matchesMntDrive at h
    split at h
    · rename_i l c rest heq
      refine ⟨c, String.mk rest, h, String.ext ?_⟩
      rw [mnt_shape_data]
      exact heq
    · exact absurd h (by simp)
  · rintro ⟨c, rest, hc, rfl⟩
    unfold matchesMntDrive
    rw [mnt_shape_data]
    exact hc

/-- C2: For every absolute path p, the Filesystem Locator reports ok=true
exactly when p does not match the prefix pattern /mnt/<single drive
letter>/ (drive letter of either case); when p matches it reports
ok=false; the result always has required=true and details equal to the
absolute path. -/
theorem filesystem_locator_spec (p : String) :
    ((check_project_path p).ok = true ↔
      ¬ ∃ c rest, c.isAlpha = true ∧
          p = "/mnt/" ++ String.singleton c ++ "/" ++ rest)
    ∧ (check_project_path p).required = true
    ∧ (check_project_path p).details = p := by
  refine ⟨?_, rfl, rfl⟩
  show (project_is_on_linux_fs p = true) ↔ _
  rw [← matchesMntDrive_iff]
  unfold project_is_on_linux_fs
  simp

/-- C9: A path that is exactly /mnt/<single letter> with no trailing
separator, or whose segment after /mnt/ is longer than one character,
is classified as on the native Linux filesystem (ok=true), because the
pattern requires exactly one drive-letter character immediately followed
by a slash. -/
theorem mnt_boundary_cases (c : Char) (seg rest : String)
    (_hc : c.isAlpha = true) (hlen : 2 ≤ seg.length) (hseg : '/' ∉ seg.data) :
    (check_project_path ("/mnt/" ++ String.singleton c)).ok = true
    ∧ (check_project_path ("/mnt/" ++ seg ++ "/" ++ rest)).ok = true := by
  have h5 : ("/mnt/" : String).data = ['/', 'm', 'n', 't', '/'] := rfl
  have h1 : ("/" : String).data = ['/'] := rfl
  constructor
  · show project_is_on_linux_fs ("/mnt/" ++ String.singleton c) = true
    unfold project_is_on_linux_fs matchesMntDrive
    split
    · rename_i l c' rest' heq
      have hd : ("/mnt/" ++ String.singleton c).data =
          '/' :: 'm' :: 'n' :: 't' :: '/' :: c :: [] := rfl
      rw [hd] at heq
      simp at heq
    · rfl
  · show project_is_on_linux_fs ("/mnt/" ++ seg ++ "/" ++ rest) = true
    obtain ⟨a, b, tl, hdata⟩ : ∃ a b tl, seg.data = a :: b :: tl := by
      rcases hd : seg.data with _ | ⟨a, _ | ⟨b, tl⟩⟩
      · rw [String.length, hd] at hlen; simp at hlen
      · rw [String.length, hd] at hlen; simp at hlen
      · exact ⟨a, b, tl, rfl⟩
    have hb : b ≠ '/' := fun hb => hseg (by rw [hdata, hb]; simp)
    unfold project_is_on_linux_fs matchesMntDrive
    split
    · rename_i l c' rest' heq
      have hd : ("/mnt/" ++ seg ++ "/" ++ rest).data =
          '/' :: 'm' :: 'n' :: 't' :: '/' :: (seg.data ++ '/' :: rest.data) := by
        simp [String.data_append, h5, h1]
      rw [hd, hdata] at heq
      simp at heq
      exact absurd heq.2.1 hb
    · rfl

/-- Witness for C9: /mnt/c itself and /mnt/cc/x are both classified as on
the native Linux filesystem. -/
theorem mnt_boundary_cases_witness :
    ('c'.isAlpha = true ∧ 2 ≤ ("cc" : String).length ∧ '/' ∉ ("cc" : String).data)
    ∧ (check_project_path ("/mnt/" ++ String.singleton 'c')).ok = true
    ∧ (check_project_path ("/mnt/" ++ "cc" ++ "/" ++ "x")).ok = true :=
  ⟨⟨by decide, by decide, by decide⟩,
    (mnt_boundary_cases 'c' "cc" "x" (by decide) (by decide) (by decide)).1,
    (mnt_boundary_cases 'c' "cc" "x" (by decide) (by decide) (by decide)).2⟩

/-- `is_wsl` computes exactly the spec-level compatibility signal. -/
lemma is_wsl_eq_true_iff (env : Env) : is_wsl env = true ↔ wsl_signal env := by
  rcases env with ⟨ps, w, pv⟩
  unfold is_wsl wsl_signal
  cases w with
  | none => cases pv <;> simp [envTruthy]
  | some s =>
    have hTs : envTruthy (some s) = !s.isEmpty := rfl
    have hbe : ((!s.isEmpty) = true) ↔ ¬(s = "") := by
      constructor
      · intro h he
        rw [he] at h
        exact absurd h (by decide)
      · intro hne
        cases h : s.isEmpty
        · rfl
        · exact absurd ((String.isEmpty_iff s).mp h) hne
    rw [hTs]
    by_cases hs : s = ""
    · rw [if_neg (fun h => (hbe.mp h) hs)]
      cases pv with
      | none => simp [hs]
      | some c => simp [hs]
    · rw [if_pos (hbe.mpr hs)]
      exact ⟨fun _ => Or.inl ⟨s, rfl, hs⟩, fun _ => rfl⟩

/-- C3: The Platform Detector (check_os) reports ok=false whenever the OS
identifies as Windows-native, regardless of any other environment signal;
otherwise ok=true, classifying the host as WSL when the compatibility
signal holds (env var set nonempty or kernel-version text contains the
vendor marker), else macOS when the OS is Darwin, else Linux; a failure to
read the kernel-version file contributes nothing (the classification
falls back to the env-var signal alone). -/
theorem platform_detector_spec (env : Env) :
    (is_windows_native env = true → (check_os env).ok = false)
    ∧ (is_windows_native env = false →
        (check_os env).ok = true
        ∧ (wsl_signal env → (check_os env).details = "Detected: WSL")
        ∧ (¬ wsl_signal env → is_macos env = true →
            (check_os env).details = "Detected: macOS")
        ∧ (¬ wsl_signal env → is_macos env = false →
            (check_os env).details = "Detected: Linux"))
    ∧ (env.procVersion = none → is_wsl env = envTruthy env.wslDistroName) := by
  have hwslApp : ("Detected: " : String) ++ "WSL" = "Detected: WSL" := rfl
  have hmacApp : ("Detected: " : String) ++ "macOS" = "Detected: macOS" := rfl
  have hlinApp : ("Detected: " : String) ++ "Linux" = "Detected: Linux" := rfl
  refine ⟨fun hw => by simp [check_os, hw], fun hw => ?_, fun hpv => ?_⟩
  · refine ⟨by simp [check_os, hw], fun hsig => ?_, fun hnsig hmac => ?_, fun hnsig hmac => ?_⟩
    · have hwsl : is_wsl env = true := (is_wsl_eq_true_iff env).mpr hsig
      simp [check_os, hw, hwsl, hwslApp]
    · have hwsl : is_wsl env = false :=
        Bool.eq_false_iff.mpr (fun h => hnsig ((is_wsl_eq_true_iff env).mp h))
      simp [check_os, hw, hwsl, hmac, hmacApp]
    · have hwsl : is_wsl env = false :=
        Bool.eq_false_iff.mpr (fun h => hnsig ((is_wsl_eq_true_iff env).mp h))
      simp [check_os, hw, hwsl, hmac, hlinApp]
  · unfold is_wsl
    rw [hpv]
    cases h : envTruthy env.wslDistroName <;> simp [h]

/-- Witness for C3 at four concrete environments covering every branch. -/
theorem platform_detector_spec_witness :
    (check_os ⟨"Windows", some "Ubuntu", some "microsoft"⟩).ok = false
    ∧ (check_os ⟨"Linux", some "Ubuntu", none⟩).details = "Detected: WSL"
    ∧ (check_os ⟨"Darwin", none, none⟩).details = "Detected: macOS"
    ∧ (check_os ⟨"Linux", none, none⟩).details = "Detected: Linux"
    ∧ is_wsl ⟨"Linux", none, none⟩ = false := by
  have hno : ¬ wsl_signal ⟨"Darwin", none, none⟩ := by
    rintro (⟨s, hs, -⟩ | ⟨c, hc, -⟩) <;> simp_all
  have hno2 : ¬ wsl_signal ⟨"Linux", none, none⟩ := by
    rintro (⟨s, hs, -⟩ | ⟨c, hc, -⟩) <;> simp_all
  exact ⟨(platform_detector_spec ⟨"Windows", some "Ubuntu", some "microsoft"⟩).1 rfl,
    ((platform_detector_spec ⟨"Linux", some "Ubuntu", none⟩).2.1 rfl).2.1
      (Or.inl ⟨"Ubuntu", rfl, by decide⟩),
    ((platform_detector_spec ⟨"Darwin", none, none⟩).2.1 rfl).2.2.1 hno rfl,
    ((platform_detector_spec ⟨"Linux", none, none⟩).2.1 rfl).2.2.2 hno2 rfl,
    ((platform_detector_spec ⟨"Linux", none, none⟩).2.2 rfl).trans rfl⟩

/-- The hit list of the scanner is empty exactly when no pattern matches. -/
lemma hits_empty_iff (path : String) :
    path_contains_windows_bins path = [] ↔
      ∀ p ∈ windows_bin_patterns, searchCI (compilePat p.data) path.data = false := by
  unfold path_contains_windows_bins
  rw [List.filter_eq_nil_iff]
  constructor
  · intro h p hp
    exact Bool.eq_false_iff.mpr (h p hp)
  · intro h p hp
    rw [h p hp]
    simp

/-- C4: For every search-path string, the Path Hygiene Scanner reports
ok=true with details="clean" exactly when none of the five fixed
Windows-location patterns matches (case-insensitive regex search); if any
pattern matches, ok=false and details lists every matched pattern; the
required flag equals the strict flag passed by the caller. -/
theorem path_hygiene_spec (path : String) (strict : Bool) :
    (check_windows_path_hygiene strict path).required = strict
    ∧ windows_bin_patterns.length = 5
    ∧ ((check_windows_path_hygiene strict path).ok = true ↔
        ∀ p ∈ windows_bin_patterns, searchCI (compilePat p.data) path.data = false)
    ∧ ((check_windows_path_hygiene strict path).ok = true →
        (check_windows_path_hygiene strict path).details = "clean")
    ∧ ((check_windows_path_hygiene strict path).ok = false →
        (check_windows_path_hygiene strict path).details =
          "matches: " ++ pyReprStrList (path_contains_windows_bins path)
        ∧ ∀ p ∈ windows_bin_patterns,
            searchCI (compilePat p.data) path.data = true →
              p ∈ path_contains_windows_bins path) := by
  have hok : (check_windows_path_hygiene strict path).ok = true ↔
      path_contains_windows_bins path = [] := by
    show (((path_contains_windows_bins path).length == 0) = true) ↔ _
    rw [Nat.beq_eq_true_eq]
    exact List.length_eq_zero
  refine ⟨rfl, rfl, hok.trans (hits_empty_iff path), fun h => ?_, fun h => ⟨?_, ?_⟩⟩
  · have hcond : ((path_contains_windows_bins path).length == 0) = true := h
    show (if (path_contains_windows_bins path).length == 0 then "clean" else _) = _
    rw [hcond]
    simp
  · have hcond : ((path_contains_windows_bins path).length == 0) = false := h
    show (if (path_contains_windows_bins path).length == 0 then "clean" else _) = _
    rw [hcond]
    simp
  · intro p hp hmatch
    exact List.mem_filter.mpr ⟨hp, hmatch⟩

/-- Witness for C4: a clean search path and one containing the first
Windows pattern. -/
theorem path_hygiene_spec_witness :
    (check_windows_path_hygiene false "/usr/bin:/usr/local/bin").details = "clean"
    ∧ (check_windows_path_hygiene true "/mnt/c/Program Files/nodejs:/usr/bin").details =
        "matches: " ++ pyReprStrList
          (path_contains_windows_bins "/mnt/c/Program Files/nodejs:/usr/bin")
    ∧ "/mnt/c/Program Files/nodejs" ∈
        path_contains_windows_bins "/mnt/c/Program Files/nodejs:/usr/bin" := by
  refine ⟨(path_hygiene_spec "/usr/bin:/usr/local/bin" false).2.2.2.1 (by rfl),
    ((path_hygiene_spec "/mnt/c/Program Files/nodejs:/usr/bin" true).2.2.2.2 (by rfl)).1,
    ((path_hygiene_spec "/mnt/c/Program Files/nodejs:/usr/bin" true).2.2.2.2 (by rfl)).2
      "/mnt/c/Program Files/nodejs" ?_ (by rfl)⟩
  simp [windows_bin_patterns]

/-- No result is both required and failed, iff `failed_required` is empty. -/
lemma failed_required_eq_nil_iff (results : List CheckResult) :
    failed_required results = [] ↔
      ∀ r ∈ results, r.required = true → r.ok = true := by
  unfold failed_required
  rw [List.filter_eq_nil_iff]
  constructor
  · intro h r hr hreq
    have hc := h r hr
    simp [hreq] at hc
    exact hc
  · intro h r hr hc
    simp at hc
    rw [h r hr hc.1] at hc
    exact absurd hc.2 (by simp)

/-- Some result is optional and failed, iff `failed_optional` is nonempty. -/
lemma failed_optional_ne_nil_iff (results : List CheckResult) :
    failed_optional results ≠ [] ↔
      ∃ r ∈ results, r.required = false ∧ r.ok = false := by
  unfold failed_optional
  rw [Ne, List.filter_eq_nil_iff]
  push_neg
  constructor
  · rintro ⟨r, hr, hc⟩
    simp at hc
    exact ⟨r, hr, hc⟩
  · rintro ⟨r, hr, h1, h2⟩
    exact ⟨r, hr, by simp [h1, h2]⟩

/-- The report always ends with the summary line. -/
lemma print_results_last (results : List CheckResult) :
    (print_results results).1.getLast? = some (summaryAndCode results).1 := by
  unfold print_results
  exact List.getLast?_concat _

/-- C1: For every list of CheckResults, the aggregator returns exit status
1 if at least one result has required=true and ok=false; otherwise it
returns 0, ending its report with the "passed with warnings" summary when
at least one result has required=false and ok=false, and with the
unqualified "passed" message when no result has ok=false. -/
theorem aggregator_exit_spec (results : List CheckResult) :
    ((∃ r ∈ results, r.required = true ∧ r.ok = false) →
        (print_results results).2 = 1)
    ∧ ((∀ r ∈ results, r.required = true → r.ok = true) →
        (print_results results).2 = 0
        ∧ ((∃ r ∈ results, r.required = false ∧ r.ok = false) →
            (print_results results).1.getLast? =
              some ("⚠️ Environment check PASSED with warnings ("
                ++ toString (failed_optional results).length ++ ")"))
        ∧ ((∀ r ∈ results, r.ok = true) →
            (print_results results).1.getLast? =
              some "✅ Environment check PASSED")) := by
  constructor
  · rintro ⟨r, hr, h1, h2⟩
    have hne : failed_required results ≠ [] := fun hnil => by
      rw [(failed_required_eq_nil_iff results).mp hnil r hr h1] at h2
      exact absurd h2 (by simp)
    show (summaryAndCode results).2 = 1
    unfold summaryAndCode
    rw [if_pos hne]
  · intro h
    have hnil : failed_required results = [] :=
      (failed_required_eq_nil_iff results).mpr h
    refine ⟨?_, fun hopt => ?_, fun hall => ?_⟩
    · show (summaryAndCode results).2 = 0
      unfold summaryAndCode
      rw [if_neg (fun hc => hc hnil)]
      by_cases ho : failed_optional results = []
      · rw [if_neg (fun hc => hc ho)]
      · rw [if_pos ho]
    · rw [print_results_last]
      have ho : failed_optional results ≠ [] :=
        (failed_optional_ne_nil_iff results).mpr hopt
      unfold summaryAndCode
      rw [if_neg (fun hc => hc hnil), if_pos ho]
    · rw [print_results_last]
      have ho : failed_optional results = [] := by
        by_contra hc
        obtain ⟨r, hr, -, h2⟩ := (failed_optional_ne_nil_iff results).mp hc
        rw [hall r hr] at h2
        exact absurd h2 (by simp)
      unfold summaryAndCode
      rw [if_neg (fun hc => hc hnil), if_neg (fun hc => hc ho)]

/-- Witness for C1: singleton result lists hitting each of the three
summary branches. -/
theorem aggregator_exit_spec_witness :
    (print_results [⟨"a", false, "", "", true⟩]).2 = 1
    ∧ (print_results [⟨"b", false, "", "", false⟩]).2 = 0
    ∧ (print_results [⟨"b", false, "", "", false⟩]).1.getLast? =
        some ("⚠️ Environment check PASSED with warnings ("
          ++ toString (failed_optional [⟨"b", false, "", "", false⟩]).length ++ ")")
    ∧ (print_results [⟨"c", true, "", "", true⟩]).1.getLast? =
        some "✅ Environment check PASSED" :=
  ⟨(aggregator_exit_spec [⟨"a", false, "", "", true⟩]).1 (by decide),
   ((aggregator_exit_spec [⟨"b", false, "", "", false⟩]).2 (by decide)).1,
   ((aggregator_exit_spec [⟨"b", false, "", "", false⟩]).2 (by decide)).2.1 (by decide),
   ((aggregator_exit_spec [⟨"c", true, "", "", true⟩]).2 (by decide)).2.2 (by decide)⟩

/-- The exit status is determined by counting required failures among the
`(ok, required)` keys. -/
lemma exit_code_countP (l : List CheckResult) :
    (print_results l).2 =
      if (l.map resultKey).countP (fun k => k.2 && !k.1) = 0 then 0 else 1 := by
  show (summaryAndCode l).2 = _
  unfold summaryAndCode
  rw [List.countP_map]
  have hcomp : List.countP ((fun k : Bool × Bool => k.2 && !k.1) ∘ resultKey) l =
      (failed_required l).length := by
    rw [List.countP_eq_length_filter]
    rfl
  rw [hcomp]
  by_cases h : failed_required l = []
  · rw [if_neg (fun hc => hc h), h]
    by_cases ho : failed_optional l = []
    · rw [if_neg (fun hc => hc ho)]
      simp
    · rw [if_pos ho]
      simp
  · have hlen : (failed_required l).length ≠ 0 := by
      simpa [List.length_eq_zero] using h
    rw [if_pos h, if_neg hlen]

/-- C8: Any two result lists inducing the same multiset of
`(ok, required)` pairs get the same exit status from the aggregator — in
particular it is invariant under permutation and under changes to the
name, details and fix fields (and, the aggregator being a pure function,
the same list always yields the same report and exit code). -/
theorem aggregator_multiset_invariance (l1 l2 : List CheckResult)
    (h : (↑(l1.map resultKey) : Multiset (Bool × Bool)) = ↑(l2.map resultKey)) :
    (print_results l1).2 = (print_results l2).2 := by
  have hp : (l1.map resultKey).Perm (l2.map resultKey) := Multiset.coe_eq_coe.mp h
  rw [exit_code_countP, exit_code_countP, hp.countP_eq]

/-- Witness for C8: two permuted lists with entirely different names,
details and fixes but equal key multisets give equal exit codes. -/
theorem aggregator_multiset_invariance_witness :
    (↑(([⟨"a", false, "d1", "f1", true⟩, ⟨"b", true, "", "", false⟩] :
          List CheckResult).map resultKey) : Multiset (Bool × Bool)) =
      ↑(([⟨"x", true, "q", "w", false⟩, ⟨"y", false, "", "", true⟩] :
          List CheckResult).map resultKey)
    ∧ (print_results [⟨"a", false, "d1", "f1", true⟩, ⟨"b", true, "", "", false⟩]).2 =
        (print_results [⟨"x", true, "q", "w", false⟩, ⟨"y", false, "", "", true⟩]).2 := by
  have h : (↑(([⟨"a", false, "d1", "f1", true⟩, ⟨"b", true, "", "", false⟩] :
        List CheckResult).map resultKey) : Multiset (Bool × Bool)) =
      ↑(([⟨"x", true, "q", "w", false⟩, ⟨"y", false, "", "", true⟩] :
        List CheckResult).map resultKey) :=
    Multiset.coe_eq_coe.mpr (List.Perm.swap (true, false) (false, true) [])
  exact ⟨h, aggregator_multiset_invariance _ _ h⟩

end EnvDoctor
